import Mathlib

/-!
Verification of the widget template/property/state/event core of the
orbtk repository, covering `src/widget/text_box.rs` (the `TextBoxState`
text-processing state, its `update_text` key handler and its `State::update`
reconciliation) and `src/widget/stack.rs` (the `Stack` composition widget).
Collaborator types that live outside the two source files (the `Key` enum
and its byte conversion, the `WidgetContainer` property accessors, the
`Template` builder, the `Selector` and the `SharedProperty` cell, and the
`create` routines of `Container`, `ScrollViewer`, `Cursor` and
`WaterMarkTextBlock`) are modelled from the specification, as marked on
each definition.
-/

namespace Orbtk

/-- Modelled from the spec: the `Key` enum of the event module is not part
of the two source files.  A key is either printable (it converts to a byte,
its character code), the backspace key, or some other non-printable key. -/
inductive Key where
  | printable (byte : Nat)
  | backspace
  | other
  deriving DecidableEq, Repr

/-- Modelled from the spec: the `Into<Option<u8>>` conversion of `Key`.
A printable key converts to its byte (reduced modulo 256, the range of
`u8`); backspace and other non-printable keys convert to `none`. -/
def Key.toByte : Key → Option Nat
  | .printable b => some (b % 256)
  | .backspace => none
  | .other => none

/-- The private data of `TextBoxState` (`src/widget/text_box.rs`):
a text buffer, a mirror of the `Focused` property, and the `updated`
dirty flag set by internal mutations. -/
structure TextBoxState where
  text : String
  focused : Bool
  updated : Bool
  deriving DecidableEq, Repr

/-- `TextBoxState::default()`: empty text, not focused, not updated. -/
def TextBoxState.default : TextBoxState :=
  { text := "", focused := false, updated := false }

/-- Modelled from the spec: the `WidgetContainer` runtime node is not part
of the two source files.  It holds at most one resolved value per property
type; we expose the two typed slots the `TextBoxState` accesses (`Label`
and `Focused`, each `none` when the container never declared that property
type, so that `borrow_property` fails with `NotFound`) together with the
remaining properties of the container, which the state code never touches. -/
structure WidgetContainer where
  label : Option String
  focused : Option Bool
  others : List String
  deriving DecidableEq, Repr

/-- `TextBoxState::update_text` (`src/widget/text_box.rs` lines 27-47):
if the internal focused mirror is unset, return `false` without touching
anything; otherwise push the byte of a printable key onto the text buffer,
pop the last character on backspace, do nothing for other keys, then set
`updated` and return `true`. -/
def TextBoxState.update_text (s : TextBoxState) (key : Key) : TextBoxState × Bool :=
  if !s.focused then
    (s, false)
  else
    let s1 : TextBoxState :=
      match Key.toByte key with
      | some byte => { s with text := s.text.push (Char.ofNat byte) }
      | none =>
        match key with
        | Key.backspace => { s with text := s.text.dropRight 1 }
        | _ => s
    ({ s1 with updated := true }, true)

/-- The key-down callback registered by `TextBox::create`
(`src/widget/text_box.rs` lines 121-123): it forwards the key to the
state's `update_text` and ignores the widget container argument, which it
returns unchanged. -/
def TextBoxState.on_key_down (s : TextBoxState) (key : Key) (w : WidgetContainer) :
    TextBoxState × WidgetContainer × Bool :=
  let r := s.update_text key
  (r.1, w, r.2)

/-- `State::update` for `TextBoxState` (`src/widget/text_box.rs` lines
51-69): first mirror the `Focused` property into the internal flag when
that property is present; then, when the `Label` property is present:
if it already equals the internal text, return; otherwise push the
internal text outward when `updated` is set, or pull the label inward
when it is not, and clear `updated` in either case. -/
def TextBoxState.update (s : TextBoxState) (w : WidgetContainer) :
    TextBoxState × WidgetContainer :=
  let s0 : TextBoxState :=
    match w.focused with
    | some f => { s with focused := f }
    | none => s
  match w.label with
  | none => (s0, w)
  | some l =>
    if l = s0.text then
      (s0, w)
    else if s0.updated then
      ({ s0 with updated := false }, { w with label := some s0.text })
    else
      ({ s0 with text := l, updated := false }, w)

/-- A sequence of `n` consecutive update ticks on the same container. -/
def TextBoxState.updateIter : Nat → TextBoxState → WidgetContainer → TextBoxState × WidgetContainer
  | 0, s, w => (s, w)
  | n + 1, s, w =>
    let p := s.update w
    TextBoxState.updateIter n p.1 p.2

/-- The `ParentType` enum (`enums` module): declared child arity of a
widget template. -/
inductive ParentType where
  | none
  | single
  | multi
  deriving DecidableEq, Repr

/-- Modelled from the spec: the layout-object descriptor attached to a
template; this core only stores it.  The stacking container uses the
stretch-style layout object (`StretchLayoutObject`). -/
inductive LayoutObject where
  | stretch
  deriving DecidableEq, Repr

/-- Modelled from the spec: a typed property value.  Identity is by type;
the types used by the two widgets are `Label(String)`, `WaterMark(String)`,
`Selector` and `Focused(bool)`. -/
inductive PropertyValue where
  | label (text : String)
  | watermark (text : String)
  | selector (classes : List String)
  | focusedProp (value : Bool)
  deriving DecidableEq, Repr

/-- Whether two property values have the same property type (the key under
which a template or container stores at most one value). -/
def PropertyValue.sameType : PropertyValue → PropertyValue → Bool
  | .label _, .label _ => true
  | .watermark _, .watermark _ => true
  | .selector _, .selector _ => true
  | .focusedProp _, .focusedProp _ => true
  | _, _ => false

/-- Modelled from the spec: the theme `Selector` is a string-like CSS-style
selector; `Selector::new()` starts empty. -/
def Selector.new : List String := []

/-- Modelled from the spec: `Selector::with` appends a class name to the
selector. -/
def Selector.addClass (s : List String) (c : String) : List String := s ++ [c]

/-- Modelled from the spec: a `SharedProperty` is a reference-counted,
interior-mutable cell wrapping one property value; handles clone the cell,
not the value.  Cell identity (which handles alias the same underlying
cell) is modelled by the numeric `id`; a freshly created cell gets an id
distinct from every other cell created in the same `create` call. -/
structure SharedProperty where
  id : Nat
  value : PropertyValue
  deriving DecidableEq, Repr

/-- Modelled from the spec: the description of a registered event handler.
The only handler the two widgets register is a key-down handler forwarding
the key to `update_text` of the state with the given id. -/
inductive EventHandlerDesc where
  | keyDown (stateId : Nat)
  deriving DecidableEq, Repr

/-- Modelled from the spec: the `Template` tree-node descriptor, with its
parent arity, ordered children, properties keyed by type, shared-property
handles, optional layout object, optional state handle (modelled by id),
ordered event handlers and debug name. -/
inductive Template where
  | mk (parent_type : ParentType) (children : List Template)
      (properties : List PropertyValue) (shared_properties : List SharedProperty)
      (layout_object : Option LayoutObject) (state : Option Nat)
      (event_handlers : List EventHandlerDesc) (debug_name : Option String)

/-- Parent arity of a template. -/
def Template.parent_type : Template → ParentType
  | .mk p _ _ _ _ _ _ _ => p

/-- Ordered children of a template. -/
def Template.children : Template → List Template
  | .mk _ c _ _ _ _ _ _ => c

/-- Properties of a template (at most one per property type). -/
def Template.properties : Template → List PropertyValue
  | .mk _ _ p _ _ _ _ _ => p

/-- Shared-property handles of a template. -/
def Template.shared_properties : Template → List SharedProperty
  | .mk _ _ _ s _ _ _ _ => s

/-- Layout object of a template. -/
def Template.layout_object : Template → Option LayoutObject
  | .mk _ _ _ _ l _ _ _ => l

/-- State handle of a template. -/
def Template.state : Template → Option Nat
  | .mk _ _ _ _ _ s _ _ => s

/-- Ordered event handlers of a template. -/
def Template.event_handlers : Template → List EventHandlerDesc
  | .mk _ _ _ _ _ _ e _ => e

/-- Debug name of a template. -/
def Template.debug_name : Template → Option String
  | .mk _ _ _ _ _ _ _ d => d

/-- Modelled from the spec: `Template::default()` — no children, no
properties, no shared properties, no layout object, no state, no event
handlers, no debug name, arity `None`. -/
def Template.default : Template :=
  .mk ParentType.none [] [] [] Option.none Option.none [] Option.none

/-- Modelled from the spec: `as_parent_type` sets the declared arity. -/
def Template.as_parent_type : Template → ParentType → Template
  | .mk _ c p s l st e d, pt => .mk pt c p s l st e d

/-- Modelled from the spec: `with_child` appends a child; a child that
would exceed the declared arity (`Single` accepts at most one child,
`None` accepts none) is ignored. -/
def Template.with_child : Template → Template → Template
  | t@(.mk pt c p s l st e d), child =>
    match pt with
    | ParentType.none => t
    | ParentType.single =>
      match c with
      | [] => .mk pt [child] p s l st e d
      | _ => t
    | ParentType.multi => .mk pt (c ++ [child]) p s l st e d

/-- Modelled from the spec: `with_property` stores a property value; a
later call with the same property type overwrites the prior value. -/
def Template.with_property : Template → PropertyValue → Template
  | .mk pt c p s l st e d, v =>
    .mk pt c (p.filter (fun q => !PropertyValue.sameType q v) ++ [v]) s l st e d

/-- Modelled from the spec: `with_shared_property` appends a handle to a
shared-property cell. -/
def Template.with_shared_property : Template → SharedProperty → Template
  | .mk pt c p s l st e d, h => .mk pt c p (s ++ [h]) l st e d

/-- Modelled from the spec: `with_layout_object` sets the layout object. -/
def Template.with_layout_object : Template → LayoutObject → Template
  | .mk pt c p s _ st e d, l => .mk pt c p s (some l) st e d

/-- Modelled from the spec: `with_state` attaches the state handle. -/
def Template.with_state : Template → Nat → Template
  | .mk pt c p s l _ e d, st => .mk pt c p s l (some st) e d

/-- Modelled from the spec: `with_event_handler` appends a handler. -/
def Template.with_event_handler : Template → EventHandlerDesc → Template
  | .mk pt c p s l st e d, h => .mk pt c p s l st (e ++ [h]) d

/-- Modelled from the spec: `with_debug_name` sets the debug name. -/
def Template.with_debug_name : Template → String → Template
  | .mk pt c p s l st e _, n => .mk pt c p s l st e (some n)

/-- Modelled from the spec: the `Container` widget is out of scope; it is
modelled as a single-child composition node identified by its name. -/
def Container.create : Template :=
  (Template.default.as_parent_type ParentType.single).with_debug_name "Container"

/-- Modelled from the spec: the `ScrollViewer` widget is out of scope; it
is modelled as a single-child composition node identified by its name. -/
def ScrollViewer.create : Template :=
  (Template.default.as_parent_type ParentType.single).with_debug_name "ScrollViewer"

/-- Modelled from the spec: the `Cursor` widget is out of scope; it is
modelled as a leaf node identified by its name. -/
def Cursor.create : Template :=
  Template.default.with_debug_name "Cursor"

/-- Modelled from the spec: the `WaterMarkTextBlock` widget is out of
scope; it is modelled as a leaf node identified by its name. -/
def WaterMarkTextBlock.create : Template :=
  Template.default.with_debug_name "WaterMarkTextBlock"

/-- `Stack::create` (`src/widget/stack.rs` lines 14-19): the default
template with arity `Multi`, the stretch layout object, and debug name
"Stack". -/
def Stack.create : Template :=
  ((Template.default.as_parent_type ParentType.multi).with_layout_object
    LayoutObject.stretch).with_debug_name "Stack"

/-- `TextBox::create` (`src/widget/text_box.rs` lines 91-124): creates the
`label`, `water_mark` and `selector` shared-property cells (modelled with
the fresh ids 0, 1, 2; `Label::default()` and `WaterMark::default()` are
empty strings, modelled from the spec) and the `TextBoxState` (modelled
with state id 0), then builds the template in the source's builder order. -/
def TextBox.create : Template :=
  let label : SharedProperty := { id := 0, value := PropertyValue.label "" }
  let water_mark : SharedProperty := { id := 1, value := PropertyValue.watermark "" }
  let selector : SharedProperty :=
    { id := 2, value := PropertyValue.selector (Selector.addClass Selector.new "textbox") }
  let state : Nat := 0
  ((((((((Template.default.as_parent_type ParentType.single).with_property
    (PropertyValue.focusedProp false)).with_child
    ((Container.create.with_child
      ((Stack.create.with_child
        (ScrollViewer.create.with_child
          (((WaterMarkTextBlock.create.with_shared_property label).with_shared_property
            selector).with_shared_property water_mark))).with_child
        Cursor.create)).with_shared_property selector)).with_state
    state).with_debug_name "TextBox").with_shared_property
    label).with_shared_property selector).with_shared_property
    water_mark).with_event_handler (EventHandlerDesc.keyDown state)

/-- Helper: when the external label already equals the internal text,
`update` returns the container unchanged and keeps the internal text. -/
lemma update_label_eq (s : TextBoxState) (w : WidgetContainer)
    (h : w.label = some s.text) :
    (s.update w).2 = w ∧ (s.update w).1.text = s.text := by
  unfold TextBoxState.update
  cases hf : w.focused <;> simp [h]

/-- C1: for every `TextBoxState` whose external `Label` property differs
from its internal text and whose `updated` flag is true, one call to
`State::update` makes the external `Label` property equal to the internal
text (internal changes win) and leaves `updated` false afterward. -/
theorem update_internal_wins (s : TextBoxState) (w : WidgetContainer) (l : String)
    (hl : w.label = some l) (hne : l ≠ s.text) (hu : s.updated = true) :
    (s.update w).2.label = some s.text ∧ (s.update w).1.updated = false := by
  unfold TextBoxState.update
  cases hf : w.focused <;> simp [hl, hne, hu]

/-- Witness for C1 at a concrete state and container. -/
theorem update_internal_wins_witness :
    (TextBoxState.update ⟨"abc", false, true⟩ ⟨some "x", Option.none, []⟩).2.label =
      some "abc" ∧
    (TextBoxState.update ⟨"abc", false, true⟩ ⟨some "x", Option.none, []⟩).1.updated =
      false :=
  update_internal_wins ⟨"abc", false, true⟩ ⟨some "x", Option.none, []⟩ "x" rfl
    (by decide) rfl

/-- C2: for every `TextBoxState` whose external `Label` property differs
from its internal text and whose `updated` flag is false, one call to
`State::update` makes the internal text equal to the new external `Label`
value (external changes win), and the container is not modified. -/
theorem update_external_wins (s : TextBoxState) (w : WidgetContainer) (l : String)
    (hl : w.label = some l) (hne : l ≠ s.text) (hu : s.updated = false) :
    (s.update w).1.text = l ∧ (s.update w).2 = w := by
  unfold TextBoxState.update
  cases hf : w.focused <;> simp [hl, hne, hu]

/-- Witness for C2 at a concrete state and container. -/
theorem update_external_wins_witness :
    (TextBoxState.update ⟨"abc", false, false⟩ ⟨some "x", Option.none, []⟩).1.text =
      "x" ∧
    (TextBoxState.update ⟨"abc", false, false⟩ ⟨some "x", Option.none, []⟩).2 =
      ⟨some "x", Option.none, []⟩ :=
  update_external_wins ⟨"abc", false, false⟩ ⟨some "x", Option.none, []⟩ "x" rfl
    (by decide) rfl

/-- C3: for every `TextBoxState` and every container whose external
`Label` property already equals the internal text, `State::update`
performs no external mutation: the container (the `Label` property and
every other property) is left unchanged, regardless of the `updated` flag
and over any sequence of ticks. -/
theorem update_steady_state_no_mutation (s : TextBoxState) (w : WidgetContainer)
    (h : w.label = some s.text) :
    ∀ n, (TextBoxState.updateIter n s w).2 = w := by
  intro n
  induction n generalizing s with
  | zero => rfl
  | succ n ih =>
    have hw := (update_label_eq s w h).1
    have ht := (update_label_eq s w h).2
    show (TextBoxState.updateIter n (s.update w).1 (s.update w).2).2 = w
    rw [hw]
    exact ih (s.update w).1 (by rw [ht, h])

/-- Witness for C3 at a concrete state, container and tick count. -/
theorem update_steady_state_no_mutation_witness :
    (TextBoxState.updateIter 3 ⟨"abc", false, true⟩
      ⟨some "abc", some true, ["extra"]⟩).2 = ⟨some "abc", some true, ["extra"]⟩ :=
  update_steady_state_no_mutation ⟨"abc", false, true⟩
    ⟨some "abc", some true, ["extra"]⟩ rfl 3

/-- C5: for every key event, when the internal focused flag is false, the
key-down handler returns false (does not consume the event) and mutates
nothing: the state (internal text and `updated` flag) and the widget
container are returned unchanged. -/
theorem update_text_unfocused_no_op (s : TextBoxState) (k : Key)
    (w : WidgetContainer) (h : s.focused = false) :
    s.on_key_down k w = (s, w, false) := by
  unfold TextBoxState.on_key_down TextBoxState.update_text
  simp [h]

/-- Witness for C5 at a concrete state, key and container. -/
theorem update_text_unfocused_no_op_witness :
    TextBoxState.on_key_down ⟨"abc", false, false⟩ (Key.printable 97)
      ⟨some "abc", some false, []⟩ =
    (⟨"abc", false, false⟩, ⟨some "abc", some false, []⟩, false) :=
  update_text_unfocused_no_op ⟨"abc", false, false⟩ (Key.printable 97)
    ⟨some "abc", some false, []⟩ rfl

/-- C6: `TextBoxState::update` is idempotent within a tick: for every
starting state and container, calling `update` twice in immediate
succession gives the same state (text, focused mirror, `updated` flag)
and container as calling it once. -/
theorem update_idempotent (s : TextBoxState) (w : WidgetContainer) :
    (s.update w).1.update (s.update w).2 = s.update w := by
  rcases s with ⟨t, f, u⟩
  rcases w with ⟨lbl, foc, o⟩
  cases foc <;> cases lbl <;>
    simp only [TextBoxState.update] <;>
    split_ifs <;> simp_all

/-- C7: when the container does not declare a required property type,
`TextBoxState::update` neither aborts nor substitutes a default: if the
`Label` property is absent, the internal text and `updated` flag are
unchanged and no property is written; if the `Focused` property is
absent, the internal focused mirror is unchanged; update always returns. -/
theorem update_missing_properties (s : TextBoxState) (w : WidgetContainer) :
    (w.label = Option.none →
      (s.update w).1.text = s.text ∧ (s.update w).1.updated = s.updated ∧
      (s.update w).2 = w) ∧
    (w.focused = Option.none → (s.update w).1.focused = s.focused) := by
  constructor
  · intro hl
    unfold TextBoxState.update
    cases hf : w.focused <;> simp [hl]
  · intro hf
    unfold TextBoxState.update
    cases hl : w.label
    · simp [hf]
    · simp [hf]
      split_ifs <;> simp

/-- Witness for C7 at a concrete state and a container declaring neither
property. -/
theorem update_missing_properties_witness :
    (TextBoxState.update ⟨"hi", true, true⟩ ⟨Option.none, Option.none, []⟩).1.text =
      "hi" ∧
    (TextBoxState.update ⟨"hi", true, true⟩ ⟨Option.none, Option.none, []⟩).1.focused =
      true :=
  ⟨((update_missing_properties ⟨"hi", true, true⟩ ⟨Option.none, Option.none, []⟩).1
      rfl).1,
   (update_missing_properties ⟨"hi", true, true⟩ ⟨Option.none, Option.none, []⟩).2
      rfl⟩

/-- The initial container of the text-input scenario: `Label` is the
empty string, `Focused` is false. -/
def scenarioW0 : WidgetContainer :=
  { label := some "", focused := some false, others := [] }

/-- The scenario container after the focus collaborator sets `Focused`. -/
def scenarioW1 : WidgetContainer :=
  { label := some "", focused := some true, others := [] }

/-- C4: text-input scenario.  From `Focused = false` and `Label = ""` with
empty internal text, key 'a' returns false and changes nothing; after
`Focused` becomes true and one update syncs the focus mirror, keys
'a', 'b', 'c' followed by an update yield `Label = "abc"`; backspace
followed by an update yields `Label = "ab"`. -/
theorem textbox_text_input_scenario :
    TextBoxState.default.on_key_down (Key.printable 97) scenarioW0 =
      (TextBoxState.default, scenarioW0, false) ∧
    scenarioW0.label = some "" ∧
    (let p1 := TextBoxState.default.update scenarioW1
     p1.1.focused = true ∧
     (let s2 := (p1.1.update_text (Key.printable 97)).1
      let s3 := (s2.update_text (Key.printable 98)).1
      let s4 := (s3.update_text (Key.printable 99)).1
      let p2 := s4.update p1.2
      p2.2.label = some "abc" ∧
      (let s5 := (p2.1.update_text Key.backspace).1
       let p3 := s5.update p2.2
       p3.2.label = some "ab"))) := by
  decide

/-- C9: `Stack::create()` returns the template with parent arity `Multi`,
the stretch layout object and debug name "Stack", and with no children,
no properties, no shared properties, no state and no event handlers. -/
theorem stack_create_template :
    Stack.create =
      Template.mk ParentType.multi [] [] [] (some LayoutObject.stretch)
        Option.none [] (some "Stack") :=
  rfl

/-- C8: `TextBox::create()` returns a template with parent arity `Single`,
a `Focused(false)` property, three freshly created shared properties
(label with id 0, watermark with id 1, and a "textbox" selector with
id 2, the ids pairwise distinct) threaded into the nested composition
container → stack → [scroll-viewer → watermark-text-block, cursor] (the
selector handle on the container, all three handles on the
watermark-text-block), an attached state (id 0), debug name "TextBox",
and exactly one key-down event handler forwarding to that same state. -/
theorem textbox_create_template :
    TextBox.create.parent_type = ParentType.single ∧
    TextBox.create.properties = [PropertyValue.focusedProp false] ∧
    TextBox.create.shared_properties =
      [⟨0, PropertyValue.label ""⟩, ⟨2, PropertyValue.selector ["textbox"]⟩,
       ⟨1, PropertyValue.watermark ""⟩] ∧
    TextBox.create.state = some 0 ∧
    TextBox.create.debug_name = some "TextBox" ∧
    TextBox.create.event_handlers = [EventHandlerDesc.keyDown 0] ∧
    TextBox.create.layout_object = Option.none ∧
    TextBox.create.children =
      [Template.mk ParentType.single
        [Template.mk ParentType.multi
          [Template.mk ParentType.single
            [Template.mk ParentType.none [] []
              [⟨0, PropertyValue.label ""⟩, ⟨2, PropertyValue.selector ["textbox"]⟩,
               ⟨1, PropertyValue.watermark ""⟩]
              Option.none Option.none [] (some "WaterMarkTextBlock")]
            [] [] Option.none Option.none [] (some "ScrollViewer"),
           Template.mk ParentType.none [] [] [] Option.none Option.none []
             (some "Cursor")]
          [] [] (some LayoutObject.stretch) Option.none [] (some "Stack")]
        [] [⟨2, PropertyValue.selector ["textbox"]⟩] Option.none Option.none []
        (some "Container")] :=
  ⟨rfl, rfl, rfl, rfl, rfl, rfl, rfl, rfl⟩

/-- C10: when the internal focused flag is true, `update_text` returns
true and sets `updated` for every key; a key that is neither printable
nor backspace leaves the internal text unchanged, and backspace with an
empty internal text leaves it empty without failure. -/
theorem update_text_focused (s : TextBoxState) (k : Key) (h : s.focused = true) :
    (s.update_text k).2 = true ∧ (s.update_text k).1.updated = true ∧
    (Key.toByte k = Option.none → k ≠ Key.backspace →
      (s.update_text k).1.text = s.text) ∧
    (k = Key.backspace → s.text = "" → (s.update_text k).1.text = "") := by
  unfold TextBoxState.update_text
  cases k <;> simp [h, Key.toByte]
  intro ht
  rw [ht]
  rfl

/-- Witness for C10: backspace on a focused state with empty text. -/
theorem update_text_focused_witness :
    (TextBoxState.update_text ⟨"", true, false⟩ Key.backspace).2 = true ∧
    (TextBoxState.update_text ⟨"", true, false⟩ Key.backspace).1.updated = true ∧
    (TextBoxState.update_text ⟨"", true, false⟩ Key.backspace).1.text = "" :=
  ⟨(update_text_focused ⟨"", true, false⟩ Key.backspace rfl).1,
   (update_text_focused ⟨"", true, false⟩ Key.backspace rfl).2.1,
   (update_text_focused ⟨"", true, false⟩ Key.backspace rfl).2.2.2 rfl rfl⟩

end Orbtk
